import Mathlib

/-!
Verification development for the quiz-generator application whose active
code lives in src/src/app/page.tsx. The parts embedded here are the
fetch routine named there as a quiz-question fetcher (retry loop with
backoff, envelope extraction, JSON parsing), the generate and load-more
state updates, and the QuizDisplay component (answer recording, score
computation, and the render condition that mounts it). External
behaviour, namely the HTTP transport and the JSON parsing builtin, is
passed in as explicit environment parameters.
-/

namespace QuestionBank

/-- A question record as produced by parsing the generated JSON array.
The source performs no structural validation, so the fields carry no
invariants here. -/
structure QuestionRecord where
  question : String
  options : List String
  correctAnswer : String
deriving DecidableEq, Repr

/-- Result shape of the external JSON parsing builtin on the extracted
text, at the granularity the application distinguishes: an array of
question records, or any other successfully parsed JSON value. The
source checks neither shape and hands both to its update callback. -/
inductive JsonValue where
  | arr (records : List QuestionRecord)
  | other
deriving DecidableEq, Repr

/-- The part of an HTTP response the fetch routine inspects: the ok
flag, and the envelope extraction of the text field under candidates,
content and parts, which the optional chaining in the source yields as
either a string or an undefined value (modelled as none). -/
structure HttpResponse where
  ok : Bool
  jsonText : Option String
deriving DecidableEq, Repr

/-- Behaviour of one awaited fetch call: the promise either rejects
with an error or resolves to a response. -/
inductive AttemptResult where
  | throwErr (e : String)
  | resp (r : HttpResponse)
deriving DecidableEq, Repr

/-- How the retry loop terminates: control leaves the loop with a
resolved response bound to the response variable, or an exception
propagates (the rethrown transport error of the last attempt, or the
type error raised by reading a response that was never assigned). -/
inductive LoopExit where
  | gotResp (r : HttpResponse)
  | thrown (e : String)
deriving DecidableEq, Repr

/-- The retry loop of the fetch routine, a for loop over i from 0 to 2
with a try and catch around each fetch. The fuel argument is the number
of iterations still permitted, so the loop is entered with fuel 3 and
i 0. The last argument is the current value of the response variable,
calls counts fetch invocations so far, and waits lists the backoff
delays in milliseconds performed so far. A resolved ok response breaks
out of the loop; a resolved non-ok response is stored and the loop
continues immediately with no wait; a rejection waits 2 ^ i * 1000
milliseconds and continues when i is below 2, and is rethrown when i
is 2. -/
def retryGo (attempts : Nat → AttemptResult) :
    Nat → Nat → Option HttpResponse → Nat → List Nat → LoopExit × Nat × List Nat
  | 0, _i, last, calls, waits =>
    match last with
    | some r => (.gotResp r, calls, waits)
    | none => (.thrown "TypeError: response is undefined", calls, waits)
  | fuel + 1, i, last, calls, waits =>
    match attempts i with
    | .resp r =>
      if r.ok then (.gotResp r, calls + 1, waits)
      else retryGo attempts fuel (i + 1) (some r) (calls + 1) waits
    | .throwErr e =>
      if i < 2 then retryGo attempts fuel (i + 1) last (calls + 1) (waits ++ [2 ^ i * 1000])
      else (.thrown e, calls + 1, waits)

/-- What the fetch routine does after its retry loop, classified by the
program point that produced it: the update callback was invoked with
the parsed value, or one of the throw sites was reached. In the source
all throws funnel into a single catch setting one user-facing error
message; the constructors here record which site threw, which is the
distinction the specification names Network, MalformedResponse and
ParseError. -/
inductive FetchOutcome where
  | updated (v : JsonValue)
  | errNetwork (e : String)
  | errMalformed (msg : String)
  | errParse
deriving DecidableEq, Repr

/-- The message of the throw guarding the envelope text. -/
def msgMalformed : String := "API returned an empty or malformed response structure."

/-- The body of the fetch routine after the retry loop: extract the
envelope text, throw the malformed-structure error when the text is
falsy (the source tests it with a negation, which is true both for an
undefined value and for the empty string), otherwise run the JSON
parsing builtin on it (the parse parameter returns none when that
builtin throws) and hand the parsed value to the update callback. -/
def parseStage (parse : String → Option JsonValue) (r : HttpResponse) : FetchOutcome :=
  match r.jsonText with
  | none => .errMalformed msgMalformed
  | some t =>
    if t = "" then .errMalformed msgMalformed
    else
      match parse t with
      | none => .errParse
      | some v => .updated v

/-- The whole fetch routine, as a function of the transport behaviour
and of the JSON parsing builtin. Returns the outcome together with the
number of fetch calls made and the list of backoff waits performed, in
milliseconds and in order. -/
def fetchQuizQuestions (parse : String → Option JsonValue)
    (attempts : Nat → AttemptResult) : FetchOutcome × Nat × List Nat :=
  match retryGo attempts 3 0 none 0 [] with
  | (.thrown e, calls, waits) => (.errNetwork e, calls, waits)
  | (.gotResp r, calls, waits) => (parseStage parse r, calls, waits)

/-- Discriminator: is the outcome the surfaced transport error, the
only outcome the specification classifies as a Network failure? -/
def FetchOutcome.isNetworkErr : FetchOutcome → Bool
  | .errNetwork _ => true
  | _ => false

/-- Discriminator: is the outcome a failure of the JSON parsing step? -/
def FetchOutcome.isParseErr : FetchOutcome → Bool
  | .errParse => true
  | _ => false

/-- The user-facing error message set by the catch block of the fetch
routine. -/
def uiErrorMessage : String :=
  "Failed to generate quiz. Please try a different topic or check the console for details."

/-- The App component state together with the QuizDisplay child state.
The userAnswers field is the local userAnswers map of the mounted
QuizDisplay component, an association list from question index to the
selected option string, or none while QuizDisplay is unmounted. -/
structure QuizState where
  topic : String
  quizData : List QuestionRecord
  userAnswers : Option (List (Nat × String))
  loading : Bool
  loadingMore : Bool
  error : Option String
  hasGenerated : Bool
deriving DecidableEq, Repr

/-- The render condition guarding the QuizDisplay element in the App
component markup: hasGenerated, and not loading, and no error. -/
def displayGate (s : QuizState) : Bool :=
  s.hasGenerated && !s.loading && s.error.isNone

/-- One render of the App component: when the gate holds and
QuizDisplay was unmounted, it mounts with a fresh empty userAnswers
state from its useState initializer; when the gate fails, QuizDisplay
unmounts and its local state is discarded. -/
def refreshDisplay (s : QuizState) : QuizState :=
  if displayGate s then
    match s.userAnswers with
    | some _ => s
    | none => { s with userAnswers := some [] }
  else
    { s with userAnswers := none }

/-- What the asynchronous part of a fetch delivers to the state
updates: either the update callback is reached with a list of records,
or the catch block is reached with some thrown error. -/
inductive MergeOutcome where
  | success (records : List QuestionRecord)
  | failure (e : String)
deriving DecidableEq, Repr

/-- State effect of the generate path once past its topic guard: the
handler sets hasGenerated, resets quizData to the empty list, and calls
the fetch routine with the quizData setter as its update callback and
the initial flag set, which sets loading and clears error before the
request; the render during the request therefore has loading true and
unmounts QuizDisplay. When the fetch settles, on success the update
callback replaces quizData with the records, on failure the error
setter stores the user-facing message; the finally clause clears
loading and the next render re-evaluates the gate. -/
def applyGenerate (s : QuizState) (m : MergeOutcome) : QuizState :=
  let s1 := refreshDisplay
    { s with hasGenerated := true, quizData := [], loading := true, error := none }
  match m with
  | .success rs => refreshDisplay { s1 with quizData := rs, loading := false }
  | .failure _ => refreshDisplay { s1 with error := some uiErrorMessage, loading := false }

/-- The generate guard: the handler returns at once when the trimmed
topic is falsy, that is when the topic trims to the empty string, which
holds exactly when every character of the topic is whitespace. -/
def topicTrimIsEmpty (topic : String) : Bool := topic.data.all Char.isWhitespace

/-- Whether the generate handler reaches the fetch call: the guard on
the trimmed topic precedes it. -/
def handleGenerateIssuesFetch (s : QuizState) : Bool := !topicTrimIsEmpty s.topic

/-- The generate handler: returns immediately when the trimmed topic is
empty, otherwise runs the generate path on the fetch outcome. -/
def handleGenerate (s : QuizState) (m : MergeOutcome) : QuizState :=
  if topicTrimIsEmpty s.topic then s else applyGenerate s m

/-- State effect of the load-more path: the handler calls the fetch
routine with an appending update callback and the initial flag unset,
so loadingMore is set and error cleared before the request, loading
stays false and QuizDisplay stays mounted during the request. On
success the update callback appends the records to quizData, on
failure the error setter stores the user-facing message; the finally
clause clears loadingMore. -/
def applyLoadMore (s : QuizState) (m : MergeOutcome) : QuizState :=
  let s1 := refreshDisplay { s with loadingMore := true, error := none }
  match m with
  | .success rs => refreshDisplay { s1 with quizData := s1.quizData ++ rs, loadingMore := false }
  | .failure _ => refreshDisplay { s1 with error := some uiErrorMessage, loadingMore := false }

/-- The object update performed by the option click handler of
QuizDisplay: the previous map spread with the question index bound to
the selected option. An existing key keeps its position and is
overwritten; a new key is appended. -/
def answersSet : List (Nat × String) → Nat → String → List (Nat × String)
  | [], i, v => [(i, v)]
  | (j, w) :: rest, i, v =>
    if j = i then (j, v) :: rest else (j, w) :: answersSet rest i v

/-- The option click handler of QuizDisplay: records the selected
option for the question index, an unconditional overwrite at this
level. -/
def handleOptionClick (ua : List (Nat × String)) (i : Nat) (v : String) :
    List (Nat × String) := answersSet ua i v

/-- A click on an option element: its click handler only invokes the
recording handler when the question is not yet answered, where answered
means the userAnswers entry for the index is defined; a click on an
already answered question does nothing. -/
def optionClick (ua : List (Nat × String)) (i : Nat) (v : String) :
    List (Nat × String) :=
  if (ua.lookup i).isSome then ua else handleOptionClick ua i v

/-- The score computation of QuizDisplay: an indexed traversal of
quizData incrementing the score when the recorded answer for that index
strictly equals the correct answer of the question; a missing answer
compares unequal. -/
def calculateScore (quizData : List QuestionRecord)
    (ua : List (Nat × String)) : Nat :=
  quizData.enum.foldl
    (fun acc p => if ua.lookup p.1 == some p.2.correctAnswer then acc + 1 else acc) 0

/-- The score line of QuizDisplay: the score is shown as a pair of the
computed score over the length of quizData, recomputed on every render
from the current state with no stored counter. -/
def scoreDisplayed (quizData : List QuestionRecord)
    (ua : List (Nat × String)) : Nat × Nat :=
  (calculateScore quizData ua, quizData.length)

/-- Specification-side definition, following the wording of the spec:
the number of indices i in range for which the recorded answer at i
equals the correct answer of question i. Used to compare the
implementation of the score against the specification. -/
def countCorrectSpec (quizData : List QuestionRecord)
    (ua : List (Nat × String)) : Nat :=
  ((List.range quizData.length).filter fun i =>
    match quizData[i]? with
    | some q => ua.lookup i == some q.correctAnswer
    | none => false).length

/-- Specification-side record validity: a non-empty question, exactly
four pairwise distinct options, and a correct answer equal to one of
the options. The source never evaluates such a predicate; it is stated
here to express the validation claims about the program. -/
def validRecord (q : QuestionRecord) : Bool :=
  (q.question != "") && (q.options.length == 4) && decide q.options.Nodup
    && q.options.contains q.correctAnswer

/-- Index-aware count of list elements satisfying an indexed predicate,
starting from a given index offset. -/
def countHelper {α : Type} (F : Nat → α → Bool) : Nat → List α → Nat
  | _, [] => 0
  | k, q :: qs => (if F k q then 1 else 0) + countHelper F (k + 1) qs

/-- Concrete transport that rejects on every attempt. -/
def attemptsAllFail : Nat → AttemptResult := fun _ => .throwErr "network down"

/-- Concrete parse environment in which the parsing builtin always
throws. -/
def parseNone : String → Option JsonValue := fun _ => none

/-- Concrete record used by witnesses. -/
def recW : QuestionRecord :=
  { question := "Q1", options := ["A", "B", "C", "D"], correctAnswer := "B" }

/-- Concrete ok response carrying a well formed body text. -/
def okBody : HttpResponse := { ok := true, jsonText := some "BATCH" }

/-- Concrete transport rejecting on the first two attempts and then
resolving with an ok response. -/
def attemptsFailTwice : Nat → AttemptResult :=
  fun i => if i < 2 then .throwErr "network down" else .resp okBody

/-- Concrete parse environment mapping the body text BATCH to a one
record array. -/
def parseBatch : String → Option JsonValue :=
  fun t => if t = "BATCH" then some (.arr [recW]) else none

/-- Concrete non-ok response carrying the well formed body text. -/
def badStatusResp : HttpResponse := { ok := false, jsonText := some "BATCH" }

/-- Concrete transport resolving every attempt with the non-ok
response. -/
def attemptsAllBadStatus : Nat → AttemptResult := fun _ => .resp badStatusResp

/-- Concrete ok response whose body text parses to a JSON value that is
not an array of question records. -/
def objBody : HttpResponse := { ok := true, jsonText := some "OBJ" }

/-- Concrete transport resolving with the non-array body at once. -/
def attemptsOkObj : Nat → AttemptResult := fun _ => .resp objBody

/-- Concrete parse environment mapping the body text OBJ to a parsed
value that is not an array of question records. -/
def parseObj : String → Option JsonValue :=
  fun t => if t = "OBJ" then some .other else none

/-- Concrete ok response with an absent envelope text. -/
def emptyEnvResp : HttpResponse := { ok := true, jsonText := none }

/-- Concrete transport resolving at once with the absent-text
response. -/
def attemptsOkEmptyEnv : Nat → AttemptResult := fun _ => .resp emptyEnvResp

/-- Concrete ok response whose body text the parsing builtin rejects. -/
def badJsonResp : HttpResponse := { ok := true, jsonText := some "NOTJSON" }

/-- Concrete transport resolving at once with the unparseable body. -/
def attemptsOkBadJson : Nat → AttemptResult := fun _ => .resp badJsonResp

/-- Concrete record violating all three validity checks: empty
question, five options with a repetition, and a correct answer matching
no option. -/
def badRec : QuestionRecord :=
  { question := "", options := ["a", "a", "b", "c", "d"], correctAnswer := "z" }

/-- Concrete ok response whose body parses to an array holding the
invalid record. -/
def badRecResp : HttpResponse := { ok := true, jsonText := some "BADREC" }

/-- Concrete transport resolving at once with the invalid-record
body. -/
def attemptsOkBadRec : Nat → AttemptResult := fun _ => .resp badRecResp

/-- Concrete parse environment mapping the body text BADREC to an array
holding the invalid record. -/
def parseBadRec : String → Option JsonValue :=
  fun t => if t = "BADREC" then some (.arr [badRec]) else none

/-- Concrete question records used by the state witnesses. -/
def q0 : QuestionRecord :=
  { question := "Q1", options := ["A", "B", "C", "D"], correctAnswer := "A" }

/-- Second concrete question record. -/
def q1 : QuestionRecord :=
  { question := "Q2", options := ["A", "B", "C", "D"], correctAnswer := "C" }

/-- Third concrete question record. -/
def q2 : QuestionRecord :=
  { question := "Q3", options := ["A", "B", "C", "D"], correctAnswer := "D" }

/-- Fourth concrete question record. -/
def q3 : QuestionRecord :=
  { question := "Q4", options := ["A", "B", "C", "D"], correctAnswer := "B" }

/-- A populated quiz state: two questions, one recorded answer, the
quiz display mounted. -/
def populatedState : QuizState :=
  { topic := "history", quizData := [q0, q1], userAnswers := some [(0, "A")],
    loading := false, loadingMore := false, error := none, hasGenerated := true }

/-- A populated quiz state whose topic consists of whitespace only. -/
def blankTopicState : QuizState :=
  { topic := "   ", quizData := [q0], userAnswers := some [(0, "A")],
    loading := false, loadingMore := false, error := none, hasGenerated := true }

/-- A left fold that conditionally increments counts the elements
accepted by the predicate, on top of the initial value. -/
theorem foldl_if_count {α : Type} (P : α → Bool) (l : List α) (n : Nat) :
    l.foldl (fun acc x => if P x then acc + 1 else acc) n = n + (l.filter P).length := by
  induction l generalizing n with
  | nil => simp
  | cons a t ih =>
    by_cases h : P a <;> simp [List.filter_cons, h, ih] <;> omega

/-- Counting over an indexed enumeration from offset k agrees with the
index-aware counter. -/
theorem enumFrom_filter_length {α : Type} (F : Nat → α → Bool) (l : List α) :
    ∀ k : Nat,
      ((List.enumFrom k l).filter fun p => F p.1 p.2).length = countHelper F k l := by
  induction l with
  | nil => intro k; simp [countHelper]
  | cons a t ih =>
    intro k
    by_cases h : F k a <;>
        simp [List.enumFrom, List.filter_cons, h, countHelper, ih (k + 1)] <;>
      omega

/-- Shifting the index offset of the counter into the predicate. -/
theorem countHelper_shift {α : Type} (F : Nat → α → Bool) (l : List α) :
    ∀ k : Nat, countHelper F (k + 1) l = countHelper (fun i x => F (i + 1) x) k l := by
  induction l with
  | nil => intro k; simp [countHelper]
  | cons a t ih =>
    intro k
    simp only [countHelper]
    rw [ih (k + 1)]

/-- The length of a filtered cons as a conditional increment. -/
theorem filter_cons_length {α : Type} (p : α → Bool) (x : α) (l : List α) :
    (List.filter p (x :: l)).length
      = (if p x then 1 else 0) + (List.filter p l).length := by
  by_cases h : p x <;> simp [List.filter_cons, h] <;> omega

/-- Counting over the index range with element lookup agrees with the
index-aware counter. -/
theorem range_filter_length {α : Type} (l : List α) :
    ∀ F : Nat → α → Bool,
      ((List.range l.length).filter fun i =>
        match l[i]? with
        | some q => F i q
        | none => false).length = countHelper F 0 l := by
  induction l with
  | nil => intro F; simp [countHelper]
  | cons a t ih =>
    intro F
    simp only [List.length_cons, List.range_succ_eq_map, filter_cons_length]
    have hzero :
        (match (a :: t)[0]? with
          | some q => F 0 q
          | none => false) = F 0 a := by
      simp
    have hmap :
        (List.filter
            (fun i =>
              match (a :: t)[i]? with
              | some q => F i q
              | none => false)
            (List.map Nat.succ (List.range t.length))).length
          = (List.filter
              (fun i =>
                match t[i]? with
                | some q => F (i + 1) q
                | none => false)
              (List.range t.length)).length := by
      rw [List.filter_map]
      rw [List.length_map]
      congr 1
      apply List.filter_congr
      intro i _
      simp [Function.comp, Nat.succ_eq_add_one]
    rw [hmap, ih (fun i q => F (i + 1) q)]
    have hsh := countHelper_shift F t 0
    simp only [Nat.zero_add] at hsh
    rw [hzero, ← hsh]
    simp only [countHelper, Nat.zero_add]

/-- The implemented score equals the index-aware counter for the
answer-matches-correct-answer predicate. -/
theorem calculateScore_eq_countHelper (quizData : List QuestionRecord)
    (ua : List (Nat × String)) :
    calculateScore quizData ua
      = countHelper (fun i q => ua.lookup i == some q.correctAnswer) 0 quizData := by
  have h1 := foldl_if_count
    (fun p : Nat × QuestionRecord => ua.lookup p.1 == some p.2.correctAnswer)
    quizData.enum 0
  have h2 := enumFrom_filter_length
    (fun i q => ua.lookup i == some q.correctAnswer) quizData 0
  calc calculateScore quizData ua
      = (quizData.enum.filter
          (fun p : Nat × QuestionRecord =>
            ua.lookup p.1 == some p.2.correctAnswer)).length := by
        simpa [calculateScore] using h1
    _ = countHelper (fun i q => ua.lookup i == some q.correctAnswer) 0 quizData := h2

/-- C1: with a transport rejecting on every attempt, the fetch makes
exactly 3 attempts, waits 1000 and 2000 milliseconds (2 to the power 0
and 2 to the power 1 seconds) after attempts 0 and 1 and nowhere else,
and surfaces the error of the last attempt as the network failure.
With a transport rejecting on exactly the first two attempts and then
resolving with an ok response whose body parses to a record array, the
fetch succeeds after exactly 3 attempts and no more, with the same two
waits. -/
theorem c1_retry_backoff
    (parse : String → Option JsonValue) (attempts : Nat → AttemptResult)
    (parse2 : String → Option JsonValue) (attempts2 : Nat → AttemptResult)
    (e0 e1 e2 f0 f1 : String) (r : HttpResponse) (t : String)
    (rs : List QuestionRecord)
    (h0 : attempts 0 = .throwErr e0) (h1 : attempts 1 = .throwErr e1)
    (h2 : attempts 2 = .throwErr e2)
    (g0 : attempts2 0 = .throwErr f0) (g1 : attempts2 1 = .throwErr f1)
    (g2 : attempts2 2 = .resp r) (gok : r.ok = true)
    (gt : r.jsonText = some t) (gne : t ≠ "") (gp : parse2 t = some (.arr rs)) :
    fetchQuizQuestions parse attempts = (.errNetwork e2, 3, [1000, 2000]) ∧
    fetchQuizQuestions parse2 attempts2 = (.updated (.arr rs), 3, [1000, 2000]) := by
  constructor
  · simp [fetchQuizQuestions, retryGo, h0, h1, h2]
  · simp [fetchQuizQuestions, retryGo, parseStage, g0, g1, g2, gok, gt, gne, gp]

/-- Witness for C1 at concrete environments. -/
theorem c1_retry_backoff_witness :
    fetchQuizQuestions parseNone attemptsAllFail
      = (.errNetwork "network down", 3, [1000, 2000]) ∧
    fetchQuizQuestions parseBatch attemptsFailTwice
      = (.updated (.arr [recW]), 3, [1000, 2000]) :=
  c1_retry_backoff parseNone attemptsAllFail parseBatch attemptsFailTwice
    "network down" "network down" "network down" "network down" "network down"
    okBody "BATCH" [recW] rfl rfl rfl rfl rfl rfl rfl rfl (by decide) (by decide)

/-- C2 counterexample: from a populated state, a failed generate does
not leave questions and answers unchanged. The generate handler resets
quizData to the empty list before the fetch, and the stored error makes
the display gate false, unmounting QuizDisplay and discarding its
answers state. -/
theorem c2_counterexample :
    (handleGenerate populatedState (.failure "boom")).quizData
        ≠ populatedState.quizData ∧
    (handleGenerate populatedState (.failure "boom")).quizData = [] ∧
    (handleGenerate populatedState (.failure "boom")).userAnswers = none := by
  refine ⟨by decide, by decide, by decide⟩

/-- C2 amended: a Failure outcome leaves the questions list unchanged
on the load-more path only; the generate path has already cleared the
questions to the empty list before fetching; and on both paths the
stored error makes the display gate false, so the quiz display unmounts
and the answers mapping is discarded rather than preserved. -/
theorem c2_failure_effects
    (s : QuizState) (ua : List (Nat × String)) (e e2 : String)
    (hm : s.userAnswers = some ua) (hg : s.hasGenerated = true)
    (hl : s.loading = false) (ht : topicTrimIsEmpty s.topic = false) :
    applyLoadMore s (.failure e) =
      { s with error := some uiErrorMessage, loadingMore := false,
               userAnswers := none } ∧
    handleGenerate s (.failure e2) =
      { s with hasGenerated := true, quizData := [], loading := false,
               error := some uiErrorMessage, userAnswers := none } := by
  obtain ⟨tp, qd, uaf, l, lm, er, hgf⟩ := s
  simp only at hm hg hl ht
  subst hm hg hl
  constructor
  · rfl
  · simp [handleGenerate, ht, applyGenerate, refreshDisplay, displayGate]

/-- Witness for the amended C2 at the populated state. -/
theorem c2_failure_effects_witness :
    applyLoadMore populatedState (.failure "boom") =
      { populatedState with error := some uiErrorMessage, loadingMore := false,
                            userAnswers := none } ∧
    handleGenerate populatedState (.failure "boom") =
      { populatedState with hasGenerated := true, quizData := [], loading := false,
                            error := some uiErrorMessage, userAnswers := none } :=
  c2_failure_effects populatedState [(0, "A")] "boom" "boom" rfl rfl rfl (by decide)

/-- C3 counterexample: a record failing every validity check is not
excluded from the result of a successful fetch; it is delivered to the
update callback. -/
theorem c3_counterexample :
    validRecord badRec = false ∧
    fetchQuizQuestions parseBadRec attemptsOkBadRec
      = (.updated (.arr [badRec]), 1, []) := by
  refine ⟨by decide, by decide⟩

/-- C3 amended: the fetch performs no per-record validation. A batch
that parses as a record array is handed to the update callback
verbatim, so records failing the validity checks are retained rather
than excluded. -/
theorem c3_no_record_validation
    (parse : String → Option JsonValue) (attempts : Nat → AttemptResult)
    (r : HttpResponse) (t : String) (rs : List QuestionRecord)
    (h0 : attempts 0 = .resp r) (hok : r.ok = true) (ht : r.jsonText = some t)
    (hne : t ≠ "") (hp : parse t = some (.arr rs)) :
    fetchQuizQuestions parse attempts = (.updated (.arr rs), 1, []) := by
  simp [fetchQuizQuestions, retryGo, parseStage, h0, hok, ht, hne, hp]

/-- Witness for the amended C3 at the invalid-record environment. -/
theorem c3_no_record_validation_witness :
    fetchQuizQuestions parseBadRec attemptsOkBadRec
      = (.updated (.arr [badRec]), 1, []) :=
  c3_no_record_validation parseBadRec attemptsOkBadRec badRecResp "BADREC"
    [badRec] rfl rfl rfl (by decide) (by decide)

/-- C4 counterexample: with every attempt resolving to a non-success
HTTP response whose body nevertheless carries a well formed batch, the
fetch does not end in a network failure after the budget: it parses the
body of the last non-ok response and invokes the update callback. -/
theorem c4_counterexample :
    fetchQuizQuestions parseBatch attemptsAllBadStatus
      = (.updated (.arr [recW]), 3, []) ∧
    FetchOutcome.isNetworkErr
      (fetchQuizQuestions parseBatch attemptsAllBadStatus).1 = false := by
  refine ⟨by decide, by decide⟩

/-- C4 amended: each non-success response causes a further attempt with
no backoff wait, up to the 3-attempt budget; once the budget is
exhausted the routine does not fail with the network classification but
proceeds to the envelope extraction and parse of the body of the last
response. -/
theorem c4_non_ok_retries_then_parses
    (parse : String → Option JsonValue) (attempts : Nat → AttemptResult)
    (r0 r1 r2 : HttpResponse)
    (h0 : attempts 0 = .resp r0) (h1 : attempts 1 = .resp r1)
    (h2 : attempts 2 = .resp r2)
    (n0 : r0.ok = false) (n1 : r1.ok = false) (n2 : r2.ok = false) :
    fetchQuizQuestions parse attempts = (parseStage parse r2, 3, []) := by
  simp [fetchQuizQuestions, retryGo, h0, h1, h2, n0, n1, n2]

/-- Witness for the amended C4 at the concrete non-ok environment. -/
theorem c4_non_ok_retries_then_parses_witness :
    fetchQuizQuestions parseBatch attemptsAllBadStatus
      = (parseStage parseBatch badStatusResp, 3, []) :=
  c4_non_ok_retries_then_parses parseBatch attemptsAllBadStatus
    badStatusResp badStatusResp badStatusResp rfl rfl rfl rfl rfl rfl

/-- C5 counterexample: an ok first response whose extracted text parses
to a JSON value that is not an array of question records does not fail
as a parse error; the value is handed to the update callback after the
single attempt. -/
theorem c5_counterexample :
    fetchQuizQuestions parseObj attemptsOkObj = (.updated .other, 1, []) ∧
    FetchOutcome.isParseErr
      (fetchQuizQuestions parseObj attemptsOkObj).1 = false := by
  refine ⟨by decide, by decide⟩

/-- C5 amended: when the first attempt resolves with an ok response, no
further attempt is made whatever the content; absent or empty envelope
text yields the malformed-structure failure, and text rejected by the
JSON parsing builtin yields the parse failure, both after exactly one
attempt. Text parsed to a value that is not an array of question
records is not rejected: the value is handed to the update callback. -/
theorem c5_ok_first_attempt
    (parse : String → Option JsonValue) (attempts : Nat → AttemptResult)
    (r : HttpResponse) (h0 : attempts 0 = .resp r) (hok : r.ok = true) :
    fetchQuizQuestions parse attempts = (parseStage parse r, 1, []) ∧
    (r.jsonText = none → parseStage parse r = .errMalformed msgMalformed) ∧
    (∀ t, r.jsonText = some t → t = "" →
      parseStage parse r = .errMalformed msgMalformed) ∧
    (∀ t, r.jsonText = some t → t ≠ "" → parse t = none →
      parseStage parse r = .errParse) := by
  refine ⟨?_, ?_, ?_, ?_⟩
  · simp [fetchQuizQuestions, retryGo, h0, hok]
  · intro hn; simp [parseStage, hn]
  · intro t htx hte; simp [parseStage, htx, hte]
  · intro t htx hne hp; simp [parseStage, htx, hne, hp]

/-- Witness for the amended C5: the absent-text case and the
unparseable-text case, both after exactly one attempt. -/
theorem c5_ok_first_attempt_witness :
    fetchQuizQuestions parseNone attemptsOkEmptyEnv
      = (.errMalformed msgMalformed, 1, []) ∧
    fetchQuizQuestions parseNone attemptsOkBadJson = (.errParse, 1, []) := by
  constructor
  · have h := c5_ok_first_attempt parseNone attemptsOkEmptyEnv emptyEnvResp rfl rfl
    rw [h.1, h.2.1 rfl]
  · have h := c5_ok_first_attempt parseNone attemptsOkBadJson badJsonResp rfl rfl
    rw [h.1, h.2.2.2 "NOTJSON" rfl (by decide) rfl]

/-- C6: a successful load-more appends the new records at the end of
the question list, leaving the mounted answers map unchanged; existing
indices keep their entries because the update is a pure append. -/
theorem c6_load_more_append
    (s : QuizState) (rs : List QuestionRecord) (ua : List (Nat × String))
    (hm : s.userAnswers = some ua) (hg : s.hasGenerated = true)
    (hl : s.loading = false) :
    (applyLoadMore s (.success rs)).quizData = s.quizData ++ rs ∧
    (applyLoadMore s (.success rs)).userAnswers = some ua := by
  obtain ⟨tp, qd, uaf, l, lm, er, hgf⟩ := s
  simp only at hm hg hl
  subst hm hg hl
  exact ⟨rfl, rfl⟩

/-- Witness for C6 mirroring the example in the specification. -/
theorem c6_load_more_append_witness :
    (applyLoadMore populatedState (.success [q2, q3])).quizData
      = populatedState.quizData ++ [q2, q3] ∧
    (applyLoadMore populatedState (.success [q2, q3])).userAnswers
      = some [(0, "A")] :=
  c6_load_more_append populatedState [q2, q3] [(0, "A")] rfl rfl rfl

/-- C7: a successful generate replaces the question list with the new
records in order and remounts the quiz display with an empty answers
map, whatever the previous answers were. -/
theorem c7_generate_replaces_and_clears
    (s : QuizState) (rs : List QuestionRecord) :
    (applyGenerate s (.success rs)).quizData = rs ∧
    (applyGenerate s (.success rs)).userAnswers = some [] := by
  obtain ⟨tp, qd, uaf, l, lm, er, hgf⟩ := s
  exact ⟨rfl, rfl⟩

/-- C8: once an answer is recorded for an index, any further option
click on that index is a no-op; the first recorded answer stays, even
for a different clicked option. -/
theorem c8_first_answer_wins
    (ua : List (Nat × String)) (i : Nat) (x y : String)
    (h : ua.lookup i = some x) :
    optionClick ua i y = ua ∧ (optionClick ua i y).lookup i = some x := by
  have hs : (ua.lookup i).isSome = true := by rw [h]; rfl
  refine ⟨?_, ?_⟩ <;> simp [optionClick, hs, h]

/-- Witness for C8 at a concrete answered index. -/
theorem c8_first_answer_wins_witness :
    optionClick [(0, "A")] 0 "B" = [(0, "A")] ∧
    (optionClick [(0, "A")] 0 "B").lookup 0 = some "A" :=
  c8_first_answer_wins [(0, "A")] 0 "A" "B" rfl

/-- C9: the displayed score is the pair of the number of indices whose
recorded answer equals the correct answer of the question at that
index, and the total number of questions; it is recomputed from the
state by a pure function. -/
theorem c9_score_pair (quizData : List QuestionRecord)
    (ua : List (Nat × String)) :
    scoreDisplayed quizData ua = (countCorrectSpec quizData ua, quizData.length) := by
  have h := range_filter_length quizData
    (fun i q => ua.lookup i == some q.correctAnswer)
  refine Prod.ext ?_ rfl
  show calculateScore quizData ua = countCorrectSpec quizData ua
  rw [calculateScore_eq_countHelper, ← h]
  unfold countCorrectSpec
  congr 1
  apply List.filter_congr
  intro i _
  cases quizData[i]? <;> rfl

/-- C10: with a topic whose trimmed form is empty, the generate handler
returns before reaching the fetch call: the state is unchanged whatever
the fetch would have produced, and the fetch call site is not
reached. -/
theorem c10_blank_topic_noop
    (s : QuizState) (m : MergeOutcome) (h : topicTrimIsEmpty s.topic = true) :
    handleGenerate s m = s ∧ handleGenerateIssuesFetch s = false := by
  refine ⟨?_, ?_⟩ <;> simp [handleGenerate, handleGenerateIssuesFetch, h]

/-- Witness for C10 at the whitespace-topic state. -/
theorem c10_blank_topic_noop_witness :
    handleGenerate blankTopicState (.failure "boom") = blankTopicState ∧
    handleGenerateIssuesFetch blankTopicState = false :=
  c10_blank_topic_noop blankTopicState (.failure "boom") (by decide)

end QuestionBank
